import Mathlib

/-!
Verification of the row query engine of the airtable-clone repository
(`src/server/api/routers/row.ts`): the search/filter SQL fragment builders,
the sort and keyset-cursor semantics, the `LIMIT n+1` page execution of the
`infinite` procedure, the `count` procedure, and the view-config merge.

The embedding is a shallow functional model: the SQL fragments the code
builds are modelled by their row-level semantics (a row satisfies the WHERE
fragment or not), rows are an explicit list, `ORDER BY` is an explicit sort,
and `LIMIT` is `List.take`.  Modelling conventions:

* Row ids are cuid strings in the code; only equality and the database's
  total order on them matter, so they are modelled as `Nat`.
* JSON cell scalars (string | number | null) are modelled by `Value`, with
  numbers as `Rat` (Postgres `numeric` is exact decimal arithmetic).
* SQL three-valued logic: every leaf comparison that can evaluate to SQL
  NULL (`cell = v`, `cell ILIKE p`, `numeric > v`, ...) occurs only
  positively under AND/OR in the generated WHERE clauses, and a row is kept
  only when the clause is TRUE; for such monotone formulas, mapping a NULL
  leaf to `false` preserves the set of kept rows, so leaves are `Bool`.
* `ILIKE '%' ++ q ++ '%'` is modelled as case-insensitive substring
  containment (the code does not escape `%`/`_` in `q`; LIKE metacharacters
  inside the query string are outside the modelled domain).
* A non-empty, non-numeric string in a NUMBER cell would make the real
  `::numeric` cast raise an SQL error; the application's write path
  (`updateCell`) never stores such a value, and the model maps it to NULL.
-/

namespace RowEngine

abbrev ColId := Nat
abbrev RowId := Nat

/-- A JSON cell scalar: string, number or null (`z.union([z.string(),
z.number(), z.null()])`). -/
inductive Value where
  | vStr (s : String)
  | vNum (q : Rat)
  | vNull
deriving DecidableEq, Repr

/-- A stored row: `id`, insertion-sequence `order`, and the sparse JSON
`cells` map from column id to scalar (absent key = no value). -/
structure Row where
  id : RowId
  order : Int
  cells : List (ColId × Value)
deriving DecidableEq, Repr

/-- JSON member access: the value stored for a column, if any. -/
def Row.cell (r : Row) (c : ColId) : Option Value :=
  List.lookup c r.cells

/-- Column type enum (`TEXT` / `NUMBER` in the Prisma schema). -/
inductive ColType where
  | text
  | number
deriving DecidableEq, Repr

structure Column where
  id : ColId
  type : ColType
deriving DecidableEq, Repr

/-- `columnTypes.get(columnId) ?? "TEXT"`: the type recorded for a column,
defaulting to TEXT for unknown column ids. -/
def columnType (cols : List Column) (c : ColId) : ColType :=
  match cols.find? (fun col => col.id == c) with
  | some col => col.type
  | none => .text

inductive FilterOperator where
  | contains
  | notContains
  | equals
  | isEmpty
  | isNotEmpty
  | gt
  | lt
deriving DecidableEq, Repr

/-- One filter condition; `value` is `none` when the optional field is
absent, `some .vNull` when it is JSON null. -/
structure FilterCondition where
  columnId : ColId
  operator : FilterOperator
  value : Option Value := none
deriving DecidableEq, Repr

inductive Conjunction where
  | and
  | or
deriving DecidableEq, Repr

structure Filters where
  conjunction : Conjunction := .and
  conditions : List FilterCondition := []
deriving DecidableEq, Repr

inductive Direction where
  | asc
  | desc
deriving DecidableEq, Repr

structure SortSpec where
  columnId : ColId
  direction : Direction
deriving DecidableEq, Repr

/-- `getPrimarySort`: the first sort entry, if any (row.ts lines 122-125). -/
def getPrimarySort (sorts : List SortSpec) : Option SortSpec :=
  sorts.head?

/-- Decimal rendering of a JSON number, used both for `cells->>'c'` (which
returns the JSON scalar as text) and for JS `String(n)`.  The two renderings
agree in reality and are abstracted by one function here; no claim depends
on the exact digits. -/
def renderNum (q : Rat) : String :=
  toString q

/-- JS `String(v)` on a non-null scalar. -/
def jsString : Value → String
  | .vStr s => s
  | .vNum q => renderNum q
  | .vNull => "null"

/-- Whitespace as trimmed by both JS `trim()` and the model's uses. -/
def isWsp (c : Char) : Bool :=
  c = ' ' || c = '\t' || c = '\n' || c = '\r'

def trimChars (l : List Char) : List Char :=
  ((l.dropWhile isWsp).reverse.dropWhile isWsp).reverse

/-- Structural model of `String.trim` (kernel-reducible, unlike the
iterator-based core implementation). -/
def strTrim (s : String) : String :=
  ⟨trimChars s.data⟩

/-- A list-of-digits decimal parser standing in for both the JS
`Number(string)` parse and the Postgres `::numeric` cast on the strings the
application can store; `none` models NaN / an unparsable string. -/
def parseDigits (ds : List Char) : Nat :=
  ds.foldl (fun a c => a * 10 + (c.toNat - 48)) 0

def parseNumRat (s : String) : Option Rat :=
  let t := trimChars s.data
  let (neg, body) :=
    match t with
    | '-' :: rest => (true, rest)
    | '+' :: rest => (false, rest)
    | l => (false, l)
  let intPart := body.takeWhile Char.isDigit
  let rest := body.dropWhile Char.isDigit
  let mk : Rat → Option Rat := fun q => some (if neg then -q else q)
  match rest with
  | [] =>
    if intPart.isEmpty then none
    else mk (parseDigits intPart : Nat)
  | '.' :: frac =>
    if frac.all Char.isDigit ∧ ¬ (intPart.isEmpty ∧ frac.isEmpty) then
      mk ((parseDigits intPart : Rat) +
        (parseDigits frac : Rat) / ((10 : Rat) ^ frac.length))
    else none
  | _ => none

/-- JS `Number(v)` coercion of an optional scalar; `none` models NaN
(`Number(undefined)` and `Number(<non-numeric string>)`). -/
def jsNumber : Option Value → Option Rat
  | none => none
  | some .vNull => some 0
  | some (.vNum q) => some q
  | some (.vStr s) => if strTrim s = "" then some 0 else parseNumRat s

/-- SQL `cells->>'c'`: the cell rendered as text, or SQL NULL when the key
is absent or the stored value is JSON null. -/
def cellText (v : Option Value) : Option String :=
  match v with
  | none => none
  | some .vNull => none
  | some (.vStr s) => some s
  | some (.vNum q) => some (renderNum q)

/-- `NULLIF(cells->>'c', '')`: the TEXT sort/comparison key. -/
def textKey (v : Option Value) : Option String :=
  match cellText v with
  | none => none
  | some s => if s = "" then none else some s

/-- `NULLIF(cells->>'c', '')::numeric`: the NUMBER sort/comparison key.
An unparsable non-empty string would error in the real query and is mapped
to NULL here (outside the modelled domain, see the header comment). -/
def numKey (v : Option Value) : Option Rat :=
  match v with
  | none => none
  | some .vNull => none
  | some (.vNum q) => some q
  | some (.vStr s) => if s = "" then none else parseNumRat s

/-- Case-insensitive substring containment: the semantics of
`x ILIKE '%' || q || '%'` for a metacharacter-free `q`. -/
def containsSub (sub : List Char) : List Char → Bool
  | [] => sub.isEmpty
  | c :: t => sub.isPrefixOf (c :: t) || containsSub sub t

def ilikeContains (s q : String) : Bool :=
  containsSub (q.data.map Char.toLower) (s.data.map Char.toLower)

/-- Byte-wise lexicographic order on strings, abstracting the database
collation used to compare TEXT sort keys and cuid ids. -/
def charListLt : List Char → List Char → Bool
  | [], [] => false
  | [], _ :: _ => true
  | _ :: _, [] => false
  | a :: as, b :: bs => a < b || (a == b && charListLt as bs)

def strLtB (s t : String) : Bool :=
  charListLt s.data t.data

/-- Row-level semantics of `buildSearchSQL` (row.ts lines 42-53): identity
predicate for a blank query or a column-less table, otherwise OR over all
columns of `COALESCE(cells->>'c','') ILIKE '%q%'`. -/
def buildSearchPred (search : Option String) (columnIds : List ColId) (r : Row) : Bool :=
  let q := strTrim (search.getD "")
  if q = "" || columnIds.isEmpty then true
  else columnIds.any (fun c => ilikeContains ((cellText (r.cell c)).getD "") q)

/-- `String(f.value ?? "")`: the text a filter value is compared as. -/
def filterValStr : Option Value → String
  | none => ""
  | some .vNull => ""
  | some (.vStr s) => s
  | some (.vNum q) => renderNum q

/-- The predicate contributed by one filter condition, mirroring the
per-type `switch` of `buildFilterSQL` (row.ts lines 55-113); `none` means
the operator is not valid for the column's type and no fragment is
contributed. -/
def conditionPred? (cols : List Column) (f : FilterCondition) : Option (Row → Bool) :=
  match columnType cols f.columnId with
  | .number =>
    match f.operator with
    | .gt => some (fun r =>
        match numKey (r.cell f.columnId), jsNumber f.value with
        | some a, some b => decide (b < a)
        | _, _ => false)
    | .lt => some (fun r =>
        match numKey (r.cell f.columnId), jsNumber f.value with
        | some a, some b => decide (a < b)
        | _, _ => false)
    | .equals => some (fun r =>
        match numKey (r.cell f.columnId), jsNumber f.value with
        | some a, some b => decide (a = b)
        | _, _ => false)
    | .isEmpty => some (fun r =>
        match cellText (r.cell f.columnId) with
        | none => true
        | some s => decide (s = ""))
    | .isNotEmpty => some (fun r =>
        match cellText (r.cell f.columnId) with
        | none => false
        | some s => decide (s ≠ ""))
    | _ => none
  | .text =>
    match f.operator with
    | .contains => some (fun r =>
        match cellText (r.cell f.columnId) with
        | some s => ilikeContains s (filterValStr f.value)
        | none => false)
    | .notContains => some (fun r =>
        ! ilikeContains ((cellText (r.cell f.columnId)).getD "") (filterValStr f.value))
    | .equals => some (fun r =>
        match cellText (r.cell f.columnId) with
        | some s => decide (s = filterValStr f.value)
        | none => false)
    | .isEmpty => some (fun r =>
        match cellText (r.cell f.columnId) with
        | none => true
        | some s => decide (s = ""))
    | .isNotEmpty => some (fun r =>
        match cellText (r.cell f.columnId) with
        | none => false
        | some s => decide (s ≠ ""))
    | _ => none

/-- One condition's contributed predicate applied to a row. -/
def condApplies (cols : List Column) (f : FilterCondition) (r : Row) : Option Bool :=
  (conditionPred? cols f).map (fun p => p r)

/-- Row-level semantics of `buildFilterSQL` (row.ts lines 55-120): the
contributed fragments joined with the configured conjunction, identity
predicate when no fragment was contributed. -/
def buildFilterPred (cols : List Column) (fs : Filters) (r : Row) : Bool :=
  let preds := fs.conditions.filterMap (fun f => (conditionPred? cols f).map (fun p => p r))
  match preds with
  | [] => true
  | _ =>
    match fs.conjunction with
    | .and => preds.all id
    | .or => preds.any id

/-- A sort key value: numeric for NUMBER columns, text for TEXT columns. -/
inductive SKey where
  | num (q : Rat)
  | str (s : String)
deriving DecidableEq, Repr

/-- Strict order on sort keys (keys of one query always share a
constructor; the cross-constructor cases are arbitrary). -/
def skeyLtB : SKey → SKey → Bool
  | .num a, .num b => decide (a < b)
  | .str a, .str b => strLtB a b
  | .num _, .str _ => true
  | .str _, .num _ => false

/-- The sort key expression of row.ts lines 208-213 applied to a row. -/
def sortKey (cols : List Column) (s : SortSpec) (r : Row) : Option SKey :=
  match columnType cols s.columnId with
  | .number => (numKey (r.cell s.columnId)).map SKey.num
  | .text => (textKey (r.cell s.columnId)).map SKey.str

/-- Semantics of the ORDER BY fragment (row.ts lines 198 and 215-218):
`r1` sorts no later than `r2`.  Default order is `("order" ASC, id ASC)`;
with a primary sort it is the sort key in the requested direction with
NULLs last, tie-broken by id in the same direction. -/
def rowLe (cols : List Column) (primary : Option SortSpec) (r1 r2 : Row) : Bool :=
  match primary with
  | none =>
    decide (r1.order < r2.order) ||
      (decide (r1.order = r2.order) && decide (r1.id ≤ r2.id))
  | some s =>
    match sortKey cols s r1, sortKey cols s r2 with
    | none, none =>
      match s.direction with
      | .asc => decide (r1.id ≤ r2.id)
      | .desc => decide (r2.id ≤ r1.id)
    | none, some _ => false
    | some _, none => true
    | some a, some b =>
      match s.direction with
      | .asc => skeyLtB a b || (a == b && decide (r1.id ≤ r2.id))
      | .desc => skeyLtB b a || (a == b && decide (r2.id ≤ r1.id))

/-- Insertion sort; stands in for the database's ORDER BY (with the unique
id tie-break the sorted sequence is unique, so stability is irrelevant). -/
def insertLe (le : Row → Row → Bool) (x : Row) : List Row → List Row
  | [] => [x]
  | y :: ys => if le x y then x :: y :: ys else y :: insertLe le x ys

def sortByLe (le : Row → Row → Bool) : List Row → List Row
  | [] => []
  | x :: xs => insertLe le x (sortByLe le xs)

/-- The continuation cursor: `id` plus either `order` (default-order case)
or `sortValue` (sorted case); both extra fields are optional in the input
schema (row.ts lines 133-139).  `sortValue = some .vNull` is an explicit
JSON null, `none` an absent field. -/
structure Cursor where
  id : RowId
  order : Option Int := none
  sortValue : Option Value := none
deriving DecidableEq, Repr

/-- Row-level semantics of the cursor continuation fragment `cursorSQL`
(row.ts lines 197-239).  SQL row comparison `(a,b) > (c,d)` is the
lexicographic `a > c OR (a = c AND b > d)`; a NULL sort key makes it NULL
(kept only through the explicit `OR sortKey IS NULL` clause).  A NaN cursor
value (unparsable numeric cursor, `jsNumber = none`) would error in the
real query and is modelled as a false comparison. -/
def cursorPred (cols : List Column) (primary : Option SortSpec)
    (cursor : Option Cursor) (r : Row) : Bool :=
  match primary, cursor with
  | none, none => true
  | none, some c =>
    match c.order with
    | none => true
    | some o =>
      decide (o < r.order) || (decide (o = r.order) && decide (c.id < r.id))
  | some _, none => true
  | some s, some c =>
    match c.sortValue.getD .vNull with
    | .vNull =>
      (sortKey cols s r).isNone &&
        (match s.direction with
         | .asc => decide (c.id < r.id)
         | .desc => decide (r.id < c.id))
    | cv =>
      match columnType cols s.columnId with
      | .number =>
        match numKey (r.cell s.columnId), jsNumber (some cv) with
        | none, _ => true
        | some k, some v =>
          (match s.direction with
           | .asc => decide (v < k) || (decide (v = k) && decide (c.id < r.id))
           | .desc => decide (k < v) || (decide (k = v) && decide (r.id < c.id)))
        | some _, none => false
      | .text =>
        match textKey (r.cell s.columnId) with
        | none => true
        | some k =>
          let v := jsString cv
          (match s.direction with
           | .asc => strLtB v k || (v == k && decide (c.id < r.id))
           | .desc => strLtB k v || (k == v && decide (r.id < c.id)))

/-- The merged `(search, filters, sorts)` specification a query runs with. -/
structure MergedSpec where
  search : Option String := none
  filters : Filters := {}
  sorts : List SortSpec := []
deriving DecidableEq, Repr

/-- The combined search+filter WHERE predicate shared by `infinite` and
`count` (row.ts lines 252-254 and 336-338). -/
def rowMatches (cols : List Column) (spec : MergedSpec) (r : Row) : Bool :=
  buildFilterPred cols spec.filters r &&
    buildSearchPred spec.search (cols.map Column.id) r

/-- JS `v === undefined || v === "" ? null : v` applied to the boundary
row's raw cell value when minting a sorted-case cursor (row.ts line 271). -/
def normalizeSortValue : Option Value → Value
  | none => .vNull
  | some (.vStr s) => if s = "" then .vNull else .vStr s
  | some (.vNum q) => .vNum q
  | some .vNull => .vNull

/-- Cursor minting from the popped boundary row (row.ts lines 260-274). -/
def mintCursor (primary : Option SortSpec) (last : Row) : Cursor :=
  match primary with
  | none => { id := last.id, order := some last.order }
  | some s => { id := last.id, sortValue := some (normalizeSortValue (last.cell s.columnId)) }

/-- The `LIMIT limit+1` result list of the page query (row.ts lines
241-258): WHERE-filtered rows in ORDER BY order, truncated to `limit+1`. -/
def pageRows (cols : List Column) (spec : MergedSpec) (limit : Nat)
    (cursor : Option Cursor) (store : List Row) : List Row :=
  let primary := getPrimarySort spec.sorts
  (sortByLe (rowLe cols primary)
      (store.filter (fun r => rowMatches cols spec r && cursorPred cols primary cursor r))).take
    (limit + 1)

structure Page where
  rows : List Row
  nextCursor : Option Cursor
deriving DecidableEq, Repr

/-- The `infinite` procedure's page execution (row.ts lines 241-276): run
the `LIMIT limit+1` query; if it returned more than `limit` rows, pop the
extra row and mint the next-page cursor from it. -/
def infinitePage (cols : List Column) (spec : MergedSpec) (limit : Nat)
    (cursor : Option Cursor) (store : List Row) : Page :=
  let res := pageRows cols spec limit cursor store
  if h : limit < res.length then
    { rows := res.take limit,
      nextCursor := some (mintCursor (getPrimarySort spec.sorts) (res.get ⟨limit, h⟩)) }
  else
    { rows := res, nextCursor := none }

/-- Exhaustive pagination: call `infinitePage`, feeding each returned
`nextCursor` back, until it is `none`; concatenate the returned rows.
`fuel` bounds the number of pages (any value at least the page count gives
the full walk). -/
def paginateAll (cols : List Column) (spec : MergedSpec) (limit : Nat)
    (store : List Row) : Nat → Option Cursor → List Row
  | 0, _ => []
  | fuel + 1, cursor =>
    let p := infinitePage cols spec limit cursor store
    match p.nextCursor with
    | none => p.rows
    | some c => p.rows ++ paginateAll cols spec limit store fuel (some c)

/-- The `count` procedure's result (row.ts lines 328-341): the number of
rows satisfying the same search+filter predicate, no sort, no cursor. -/
def countRows (cols : List Column) (search : Option String) (filters : Filters)
    (store : List Row) : Nat :=
  (store.filter (fun r =>
    buildFilterPred cols filters r &&
      buildSearchPred search (cols.map Column.id) r)).length

/-- Request-level overrides as received by `infinite`/`count`: for `search`
the outer `Option` is field presence and the inner one JSON null vs string;
`filters`/`sorts` are optional, non-nullable. -/
structure RequestSpec where
  search : Option (Option String) := none
  filters : Option Filters := none
  sorts : Option (List SortSpec) := none
deriving DecidableEq, Repr

/-- A view's persisted config as parsed by the zod schema of row.ts lines
177-183: every field optional, `search` additionally nullable. -/
structure ViewConfig where
  search : Option (Option String) := none
  filters : Option Filters := none
  sorts : Option (List SortSpec) := none
deriving DecidableEq, Repr

/-- JS `view ?? request` for the nullable search field: the view's value is
used only when present and non-null (`??` is nullish coalescing). -/
def nullishSearch : Option (Option String) → Option String → Option String
  | some (some s), _ => some s
  | _, d => d

/-- The view-config merge of `infinite` (row.ts lines 164-191).  The
`view` argument is `some v` when a view id was supplied, the view was found
and its config parsed successfully, and `none` in every other case (no view
id, view not found, or parse failure), which all leave the request values
in place. -/
def mergeListSpec (req : RequestSpec) (view : Option ViewConfig) : MergedSpec :=
  let s0 : Option String := nullishSearch req.search none
  let f0 : Filters := req.filters.getD {}
  let so0 : List SortSpec := req.sorts.getD []
  match view with
  | none => { search := s0, filters := f0, sorts := so0 }
  | some v =>
    { search := nullishSearch v.search s0,
      filters := v.filters.getD f0,
      sorts := v.sorts.getD so0 }

/-- The view-config merge of `count` (row.ts lines 302-326): same shape,
without sorts. -/
def mergeCountSpec (req : RequestSpec) (view : Option ViewConfig) :
    Option String × Filters :=
  let s0 : Option String := nullishSearch req.search none
  let f0 : Filters := req.filters.getD {}
  match view with
  | none => (s0, f0)
  | some v => (nullishSearch v.search s0, v.filters.getD f0)

/-! ## Concrete instances used by the theorems below -/

/-- A cell-less row with id and order `i`. -/
def demoRow (i : Nat) : Row :=
  { id := i, order := (i : Int), cells := [] }

def numColC : Column := { id := 1, type := .number }

def rowA2 : Row := { id := 1, order := 1, cells := [(1, .vNum 2)] }
def rowANull : Row := { id := 2, order := 2, cells := [(1, .vNull)] }
def rowA1 : Row := { id := 3, order := 3, cells := [(1, .vNum 1)] }

def specAscC : MergedSpec := { sorts := [{ columnId := 1, direction := .asc }] }
def specDescC : MergedSpec := { sorts := [{ columnId := 1, direction := .desc }] }

def reqFiltersC2 : Filters :=
  { conjunction := .and,
    conditions := [{ columnId := 1, operator := .contains, value := some (.vStr "req") }] }

def viewFiltersC2 : Filters := { conjunction := .or, conditions := [] }

/-! ## Claims -/

/-- C1: exhaustive pagination returns every matching row exactly once.
This fails on the code: the cursor is minted from the popped boundary row
while the continuation predicate is strict, so the popped row is excluded
from the next page and never returned.  On a three-row table with the empty
spec and `limit = 1`, exhaustive pagination returns rows 1 and 3 only,
although all three rows match and the full sorted matching list is
`[1, 2, 3]`. -/
theorem c1_pagination_skips_popped_row :
    paginateAll [] {} 1 [demoRow 1, demoRow 2, demoRow 3] 4 none
        = [demoRow 1, demoRow 3]
    ∧ sortByLe (rowLe [] none)
        (List.filter (fun r => rowMatches [] {} r) [demoRow 1, demoRow 2, demoRow 3])
        = [demoRow 1, demoRow 2, demoRow 3]
    ∧ demoRow 2 ∉ paginateAll [] {} 1 [demoRow 1, demoRow 2, demoRow 3] 4 none := by
  decide

/-- C3: `count` equals the total of exhaustive pagination for every limit.
This fails on the code for the same reason as C1: on a three-row table with
the empty spec, `count` returns 3 but paginating with `limit = 1` returns
only 2 rows (the search/filter predicates themselves are shared, so the
mismatch is purely the pagination omission). -/
theorem c3_count_exceeds_paginated_total :
    countRows [] none {} [demoRow 1, demoRow 2, demoRow 3] = 3
    ∧ (paginateAll [] {} 1 [demoRow 1, demoRow 2, demoRow 3] 4 none).length = 2 := by
  decide

/-- C2 counterexample: request-level values do NOT win.  With a view whose
parsed config carries a filter set, the merged spec uses the view's
filters, not the request's. -/
theorem c2_request_values_do_not_win :
    (mergeListSpec { filters := some reqFiltersC2 }
        (some { filters := some viewFiltersC2 })).filters = viewFiltersC2
    ∧ viewFiltersC2 ≠ reqFiltersC2 := by
  decide

/-- C2 (amended): merge precedence is the reverse of the claim — for every
list or count call whose view config parsed successfully, the merged spec
uses, field by field, the view's persisted value when the parsed config
supplies it (for `search`, a non-null one), and falls back to the
request-level value when the view omits the field; a persisted
`search: null` falls back like an omitted field, because the merge is
nullish coalescing (the request-level search is itself `input.search`
with JSON null and an absent field both becoming no search). -/
theorem c2_merge_view_wins (req : RequestSpec) (v : ViewConfig) :
    (∀ f, v.filters = some f →
        (mergeListSpec req (some v)).filters = f
        ∧ (mergeCountSpec req (some v)).2 = f)
    ∧ (v.filters = none →
        (mergeListSpec req (some v)).filters = req.filters.getD {}
        ∧ (mergeCountSpec req (some v)).2 = req.filters.getD {})
    ∧ (∀ l, v.sorts = some l → (mergeListSpec req (some v)).sorts = l)
    ∧ (v.sorts = none → (mergeListSpec req (some v)).sorts = req.sorts.getD [])
    ∧ (∀ s, v.search = some (some s) →
        (mergeListSpec req (some v)).search = some s
        ∧ (mergeCountSpec req (some v)).1 = some s)
    ∧ ((v.search = none ∨ v.search = some none) →
        (mergeListSpec req (some v)).search = nullishSearch req.search none
        ∧ (mergeCountSpec req (some v)).1 = nullishSearch req.search none) := by
  refine ⟨?_, ?_, ?_, ?_, ?_, ?_⟩
  · intro f hf
    simp [mergeListSpec, mergeCountSpec, hf]
  · intro hf
    simp [mergeListSpec, mergeCountSpec, hf]
  · intro l hl
    simp [mergeListSpec, hl]
  · intro hl
    simp [mergeListSpec, hl]
  · intro s hs
    simp [mergeListSpec, mergeCountSpec, nullishSearch, hs]
  · intro hs
    rcases hs with hs | hs <;>
      simp [mergeListSpec, mergeCountSpec, nullishSearch, hs]

/-- A request carrying every override, for the C2 witness. -/
def reqC2W : RequestSpec :=
  { search := some (some "rq"), filters := some reqFiltersC2,
    sorts := some [{ columnId := 5, direction := .asc }] }

/-- A view config supplying filters, persisting `search: null`, and
omitting sorts, for the C2 witness. -/
def viewC2W : ViewConfig :=
  { search := some none, filters := some viewFiltersC2, sorts := none }

/-- Witness for C2: at a concrete request/view pair, the view's supplied
filters win, the omitted sorts fall back to the request's, and the view's
persisted null search falls back to the request's search. -/
theorem c2_merge_view_wins_witness :
    (mergeListSpec reqC2W (some viewC2W)).filters = viewFiltersC2
    ∧ (mergeCountSpec reqC2W (some viewC2W)).2 = viewFiltersC2
    ∧ (mergeListSpec reqC2W (some viewC2W)).sorts
        = [{ columnId := 5, direction := .asc }]
    ∧ (mergeListSpec reqC2W (some viewC2W)).search = some "rq"
    ∧ (mergeCountSpec reqC2W (some viewC2W)).1 = some "rq" :=
  ⟨((c2_merge_view_wins reqC2W viewC2W).1 viewFiltersC2 rfl).1,
   ((c2_merge_view_wins reqC2W viewC2W).1 viewFiltersC2 rfl).2,
   (c2_merge_view_wins reqC2W viewC2W).2.2.2.1 rfl,
   ((c2_merge_view_wins reqC2W viewC2W).2.2.2.2.2 (Or.inr rfl)).1,
   ((c2_merge_view_wins reqC2W viewC2W).2.2.2.2.2 (Or.inr rfl)).2⟩

/-! ## Helper lemmas -/

theorem charListLt_irrefl (l : List Char) : charListLt l l = false := by
  induction l with
  | nil => rfl
  | cons a as ih => simp [charListLt, ih]

theorem skeyLtB_irrefl (a : SKey) : skeyLtB a a = false := by
  cases a with
  | num q => simp [skeyLtB]
  | str s => simp [skeyLtB, strLtB, charListLt_irrefl]

theorem string_of_data_nil {s : String} (h : s.data = []) : s = "" := by
  cases s with
  | mk data => cases h; rfl

theorem ilikeContains_empty_left {q : String} (h : q ≠ "") :
    ilikeContains "" q = false := by
  have hd : q.data ≠ [] := fun hn => h (string_of_data_nil hn)
  have : ("" : String).data = [] := rfl
  simp only [ilikeContains, this, List.map_nil, containsSub]
  cases hq : q.data with
  | nil => exact absurd hq hd
  | cons c t => simp [hq, List.isEmpty]

/-- C5: with an active primary sort, rows are ordered by the sort key in
the requested direction with NULL keys last regardless of direction, ties
broken by id in the same direction; concretely, sorting `{a:2},{a:null},
{a:1}` on a NUMBER column yields `1, 2, null` ascending and `2, 1, null`
descending. -/
theorem c5_nulls_last_sort (cols : List Column) (s : SortSpec) (r1 r2 : Row) :
    (sortKey cols s r1 ≠ none → sortKey cols s r2 = none →
        rowLe cols (some s) r1 r2 = true ∧ rowLe cols (some s) r2 r1 = false)
    ∧ (sortKey cols s r1 = sortKey cols s r2 →
        (rowLe cols (some s) r1 r2 = true ↔
          match s.direction with
          | .asc => r1.id ≤ r2.id
          | .desc => r2.id ≤ r1.id))
    ∧ (∀ a b, sortKey cols s r1 = some a → sortKey cols s r2 = some b → a ≠ b →
        (rowLe cols (some s) r1 r2 = true ↔
          match s.direction with
          | .asc => skeyLtB a b = true
          | .desc => skeyLtB b a = true))
    ∧ (infinitePage [numColC] specAscC 10 none [rowA2, rowANull, rowA1]).rows
        = [rowA1, rowA2, rowANull]
    ∧ (infinitePage [numColC] specDescC 10 none [rowA2, rowANull, rowA1]).rows
        = [rowA2, rowA1, rowANull] := by
  obtain ⟨cid, dir⟩ := s
  refine ⟨?_, ?_, ?_, by decide, by decide⟩
  · intro h1 h2
    rcases Option.ne_none_iff_exists'.mp h1 with ⟨a, ha⟩
    constructor <;> simp [rowLe, ha, h2]
  · intro he
    cases hk : sortKey cols ⟨cid, dir⟩ r1 with
    | none =>
      rw [hk] at he
      cases dir <;> simp [rowLe, hk, ← he]
    | some a =>
      rw [hk] at he
      cases dir <;> simp [rowLe, hk, ← he, skeyLtB_irrefl]
  · intro a b ha hb hne
    cases dir <;> simp [rowLe, ha, hb, hne, Ne.symm hne]

/-- Witness for C5 at concrete rows: a null-keyed row sorts strictly after
a keyed row in both directions, and equal keys tie-break by id. -/
theorem c5_nulls_last_sort_witness :
    (rowLe [numColC] (some { columnId := 1, direction := .desc }) rowA1 rowANull = true
      ∧ rowLe [numColC] (some { columnId := 1, direction := .desc }) rowANull rowA1 = false)
    ∧ (rowLe [numColC] (some { columnId := 1, direction := .asc }) rowA1 rowA1 = true ↔
        rowA1.id ≤ rowA1.id) :=
  ⟨(c5_nulls_last_sort [numColC] { columnId := 1, direction := .desc } rowA1 rowANull).1
      (by decide) (by decide),
   (c5_nulls_last_sort [numColC] { columnId := 1, direction := .asc } rowA1 rowA1).2.1 rfl⟩

/-- C6: the search predicate is identically true for a blank (trimmed)
query or a column-less table; otherwise a row matches iff some column's
cell text (NULL coalesced to the empty string) contains the trimmed query
as a case-insensitive substring; a row with all-null/empty cell text never
matches a non-blank search, and `"Hello World"` matches `"hello"`. -/
theorem c6_search_semantics :
    (∀ q ids r, (strTrim (q.getD "") = "" ∨ ids = []) →
        buildSearchPred q ids r = true)
    ∧ (∀ q ids r, strTrim (q.getD "") ≠ "" → ids ≠ [] →
        (buildSearchPred q ids r = true ↔
          ∃ c ∈ ids,
            ilikeContains ((cellText (r.cell c)).getD "") (strTrim (q.getD "")) = true))
    ∧ (∀ q ids r, strTrim (q.getD "") ≠ "" → ids ≠ [] →
        (∀ c ∈ ids, cellText (r.cell c) = none ∨ cellText (r.cell c) = some "") →
        buildSearchPred q ids r = false)
    ∧ buildSearchPred (some "hello") [7]
        { id := 1, order := 1, cells := [(7, .vStr "Hello World")] } = true
    ∧ buildSearchPred (some "x") [7] { id := 1, order := 1, cells := [] } = false := by
  refine ⟨?_, ?_, ?_, by decide, by decide⟩
  · intro q ids r h
    rcases h with h | h <;> simp [buildSearchPred, h]
  · intro q ids r h1 h2
    simp [buildSearchPred, h1, h2, List.any_eq_true]
  · intro q ids r h1 h2 hall
    simp only [buildSearchPred, h1, h2]
    rw [if_neg]
    · rw [List.any_eq_false]
      intro c hc
      rcases hall c hc with h | h <;>
        simp [h, ilikeContains_empty_left h1]
    · simp [h1, h2]

/-- Witness for C6: the characterization applied at a concrete search. -/
theorem c6_search_semantics_witness :
    buildSearchPred (some "LO wo") [7]
        { id := 1, order := 1, cells := [(7, .vStr "Hello World")] } = true :=
  (c6_search_semantics.2.1 (some "LO wo") [7]
      { id := 1, order := 1, cells := [(7, .vStr "Hello World")] }
      (by decide) (by decide)).mpr ⟨7, by decide, by decide⟩

/-- C7: for a TEXT column, `equals` with value `""` never matches a row
whose cell text is NULL (absent or JSON-null cell), while `isEmpty`
matches exactly the rows whose cell text is NULL or the empty string. -/
theorem c7_text_equals_isEmpty_asymmetry (cols : List Column) (cid : ColId) (r : Row)
    (hty : columnType cols cid = .text) :
    (cellText (r.cell cid) = none →
      condApplies cols { columnId := cid, operator := .equals, value := some (.vStr "") } r
        = some false)
    ∧ (∃ b, condApplies cols { columnId := cid, operator := .isEmpty, value := none } r
        = some b
        ∧ (b = true ↔ cellText (r.cell cid) = none ∨ cellText (r.cell cid) = some "")) := by
  constructor
  · intro hnull
    simp [condApplies, conditionPred?, hty, hnull]
  · cases hct : cellText (r.cell cid) with
    | none => exact ⟨true, by simp [condApplies, conditionPred?, hty, hct], by simp⟩
    | some s =>
      refine ⟨decide (s = ""), by simp [condApplies, conditionPred?, hty, hct], ?_⟩
      simp [hct]

/-- Witness for C7: a row with an absent cell, under a TEXT column. -/
theorem c7_text_equals_isEmpty_asymmetry_witness :
    condApplies [{ id := 7, type := .text }]
        { columnId := 7, operator := .equals, value := some (.vStr "") }
        { id := 1, order := 1, cells := [] } = some false :=
  (c7_text_equals_isEmpty_asymmetry [{ id := 7, type := .text }] 7
      { id := 1, order := 1, cells := [] } (by decide)).1 (by decide)

/-- A filter condition whose operator is not valid for its column's type:
`contains`/`notContains` on a NUMBER column, `gt`/`lt` on a TEXT column. -/
def isNoOpCondition (cols : List Column) (f : FilterCondition) : Prop :=
  (columnType cols f.columnId = .number ∧
      (f.operator = .contains ∨ f.operator = .notContains))
  ∨ (columnType cols f.columnId = .text ∧
      (f.operator = .gt ∨ f.operator = .lt))

/-- C8: a condition whose operator is invalid for its column's type
contributes no predicate, and a filter set consisting only of such
conditions (or none at all) compiles to the identity predicate. -/
theorem c8_unknown_operator_noop (cols : List Column) (fs : Filters) (r : Row)
    (h : ∀ f ∈ fs.conditions, isNoOpCondition cols f) :
    (∀ f ∈ fs.conditions, conditionPred? cols f = none)
    ∧ buildFilterPred cols fs r = true := by
  have hnone : ∀ f ∈ fs.conditions, conditionPred? cols f = none := by
    intro f hf
    rcases h f hf with ⟨hty, hop | hop⟩ | ⟨hty, hop | hop⟩ <;>
      simp [conditionPred?, hty, hop]
  refine ⟨hnone, ?_⟩
  have hnil : fs.conditions.filterMap
      (fun f => (conditionPred? cols f).map (fun p => p r)) = [] := by
    rw [List.filterMap_eq_nil_iff]
    intro f hf
    rw [hnone f hf]
    rfl
  simp [buildFilterPred, hnil]

/-- Witness for C8: a NUMBER-column `contains` condition is dropped and
the resulting filter is identically true. -/
theorem c8_unknown_operator_noop_witness :
    buildFilterPred [numColC]
      { conjunction := .or,
        conditions := [{ columnId := 1, operator := .contains, value := some (.vStr "x") }] }
      rowA2 = true :=
  (c8_unknown_operator_noop [numColC]
      { conjunction := .or,
        conditions := [{ columnId := 1, operator := .contains, value := some (.vStr "x") }] }
      rowA2 (by
        intro f hf
        rcases List.mem_singleton.mp hf with rfl
        exact Or.inl ⟨rfl, Or.inl rfl⟩)).2

/-- C9: with no active sort, a cursor whose `order` field is absent adds no
continuation predicate: the page is identical to the cursor-less call. -/
theorem c9_orderless_cursor_ignored (cols : List Column) (spec : MergedSpec)
    (limit : Nat) (store : List Row) (c : Cursor)
    (hs : getPrimarySort spec.sorts = none) (ho : c.order = none) :
    infinitePage cols spec limit (some c) store
      = infinitePage cols spec limit none store := by
  have hp : ∀ r, cursorPred cols (getPrimarySort spec.sorts) (some c) r
      = cursorPred cols (getPrimarySort spec.sorts) none r := by
    intro r
    rw [hs]
    simp [cursorPred, ho]
  have hpr : pageRows cols spec limit (some c) store
      = pageRows cols spec limit none store := by
    simp only [pageRows, hp]
  unfold infinitePage
  rw [hpr]

/-- Witness for C9: a sort-less spec with a sortValue-only cursor returns
the first page again. -/
theorem c9_orderless_cursor_ignored_witness :
    infinitePage [] {} 1 (some { id := 2, sortValue := some (.vStr "zz") })
        [demoRow 1, demoRow 2, demoRow 3]
      = infinitePage [] {} 1 none [demoRow 1, demoRow 2, demoRow 3] :=
  c9_orderless_cursor_ignored [] {} 1 [demoRow 1, demoRow 2, demoRow 3]
    { id := 2, sortValue := some (.vStr "zz") } rfl rfl

theorem normalizeSortValue_ne_empty (v : Option Value) :
    normalizeSortValue v ≠ .vStr "" := by
  match v with
  | none => simp [normalizeSortValue]
  | some (.vStr s) =>
    simp only [normalizeSortValue]
    split
    · simp
    · next h => simp [h]
  | some (.vNum q) => simp [normalizeSortValue]
  | some .vNull => simp [normalizeSortValue]

/-- C10: whenever a next-page cursor is minted, it is minted from the
popped boundary row (index `limit` of the `limit+1`-row query result): in
the default-order case it carries exactly that row's id and order; in the
sorted case it carries that row's id and its raw cell value for the sort
column with absent or empty-string cells normalized to null, and its
`sortValue` is never the empty string. -/
theorem c10_minted_cursor_normalized (cols : List Column) (spec : MergedSpec)
    (limit : Nat) (cursor : Option Cursor) (store : List Row) (c : Cursor)
    (h : (infinitePage cols spec limit cursor store).nextCursor = some c) :
    ∃ b, (pageRows cols spec limit cursor store).get? limit = some b
      ∧ c = mintCursor (getPrimarySort spec.sorts) b
      ∧ (getPrimarySort spec.sorts = none →
          c = { id := b.id, order := some b.order, sortValue := none })
      ∧ (∀ s, getPrimarySort spec.sorts = some s →
          c.id = b.id ∧ c.order = none
          ∧ c.sortValue = some (normalizeSortValue (b.cell s.columnId))
          ∧ ((b.cell s.columnId = none ∨ b.cell s.columnId = some (.vStr "")) →
              c.sortValue = some .vNull)
          ∧ c.sortValue ≠ some (.vStr "")) := by
  unfold infinitePage at h
  by_cases hlt : limit < (pageRows cols spec limit cursor store).length
  · rw [dif_pos hlt] at h
    simp only [Option.some.injEq] at h
    refine ⟨(pageRows cols spec limit cursor store).get ⟨limit, hlt⟩,
      List.get?_eq_get hlt, h.symm, ?_, ?_⟩
    · intro hp
      rw [← h, hp]
      rfl
    · intro s hp
      rw [← h, hp]
      refine ⟨rfl, rfl, rfl, ?_, ?_⟩
      · intro hcell
        simp only [List.get_eq_getElem] at hcell
        rcases hcell with hc | hc <;> simp [mintCursor, hc, normalizeSortValue]
      · simp [mintCursor, normalizeSortValue_ne_empty]
  · rw [dif_neg hlt] at h
    simp at h

/-- Witness for C10: the cursor minted by a concrete truncated sorted page
carries the boundary row's id and raw numeric cell value. -/
theorem c10_minted_cursor_normalized_witness :
    ∃ b, (pageRows [numColC] specAscC 1 none [rowA2, rowANull, rowA1]).get? 1 = some b
      ∧ ({ id := 1, order := none, sortValue := some (.vNum 2) } : Cursor)
          = mintCursor (getPrimarySort specAscC.sorts) b
      ∧ (getPrimarySort specAscC.sorts = none →
          ({ id := 1, order := none, sortValue := some (.vNum 2) } : Cursor)
            = { id := b.id, order := some b.order, sortValue := none })
      ∧ (∀ s, getPrimarySort specAscC.sorts = some s →
          ({ id := 1, order := none, sortValue := some (.vNum 2) } : Cursor).id = b.id
          ∧ ({ id := 1, order := none, sortValue := some (.vNum 2) } : Cursor).order = none
          ∧ ({ id := 1, order := none, sortValue := some (.vNum 2) } : Cursor).sortValue
              = some (normalizeSortValue (b.cell s.columnId))
          ∧ ((b.cell s.columnId = none ∨ b.cell s.columnId = some (.vStr "")) →
              ({ id := 1, order := none, sortValue := some (.vNum 2) } : Cursor).sortValue
                = some .vNull)
          ∧ ({ id := 1, order := none, sortValue := some (.vNum 2) } : Cursor).sortValue
              ≠ some (.vStr "")) :=
  c10_minted_cursor_normalized [numColC] specAscC 1 none [rowA2, rowANull, rowA1]
    { id := 1, order := none, sortValue := some (.vNum 2) } (by decide)

/-- Claim-side: "id compares after cursor.id in the sort direction". -/
def idAfter (dir : Direction) (cursorId rid : RowId) : Prop :=
  match dir with
  | .asc => cursorId < rid
  | .desc => rid < cursorId

/-- Claim-side: "the key compares after the cursor key in the sort
direction". -/
def keyAfter (dir : Direction) (cursorKey k : SKey) : Prop :=
  match dir with
  | .asc => skeyLtB cursorKey k = true
  | .desc => skeyLtB k cursorKey = true

/-- Claim-side: the cursor's raw `sortValue` coerced the way the query
binds it (`Number(cursorVal)` for NUMBER columns, `String(cursorVal)` for
TEXT columns); `none` models NaN. -/
def typedCursorKey : ColType → Value → Option SKey
  | .number, cv => (jsNumber (some cv)).map SKey.num
  | .text, cv => some (.str (jsString cv))

/-- C4: with an active primary sort and a supplied cursor, a null
`sortValue` keeps exactly the rows with NULL sort key whose id compares
after the cursor id in the sort direction; a non-null `sortValue` keeps
exactly the rows whose `(sortKey, id)` pair compares after
`(sortValue, cursor.id)` lexicographically in the sort direction, plus all
rows with NULL sort key. -/
theorem c4_sorted_continuation (cols : List Column) (s : SortSpec) (c : Cursor) (r : Row) :
    (c.sortValue.getD .vNull = .vNull →
      (cursorPred cols (some s) (some c) r = true ↔
        sortKey cols s r = none ∧ idAfter s.direction c.id r.id))
    ∧ (∀ cv, c.sortValue = some cv → cv ≠ .vNull →
      (cursorPred cols (some s) (some c) r = true ↔
        sortKey cols s r = none ∨
          ∃ k v, sortKey cols s r = some k
            ∧ typedCursorKey (columnType cols s.columnId) cv = some v
            ∧ (keyAfter s.direction v k ∨ (v = k ∧ idAfter s.direction c.id r.id)))) := by
  obtain ⟨cid, dir⟩ := s
  constructor
  · intro h0
    simp only [cursorPred, h0]
    cases dir <;>
      simp [Bool.and_eq_true, Option.isNone_iff_eq_none, idAfter]
  · intro cv hcv hne
    simp only [cursorPred, hcv, Option.getD_some]
    cases cv with
    | vNull => exact absurd rfl hne
    | vStr sv =>
      cases hty : columnType cols cid with
      | number =>
        cases hnk : numKey (r.cell cid) with
        | none => simp [hty, hnk, sortKey]
        | some k =>
          cases hjs : jsNumber (some (.vStr sv)) with
          | none => simp [hty, hnk, hjs, sortKey, typedCursorKey]
          | some v =>
            cases dir
            · simp [hty, hnk, hjs, sortKey, typedCursorKey, keyAfter, idAfter, skeyLtB]
            · simp [hty, hnk, hjs, sortKey, typedCursorKey, keyAfter, idAfter, skeyLtB]
              exact or_congr Iff.rfl (and_congr eq_comm Iff.rfl)
      | text =>
        cases hnk : textKey (r.cell cid) with
        | none => simp [hty, hnk, sortKey]
        | some k =>
          cases dir
          · simp [hty, hnk, sortKey, typedCursorKey, keyAfter, idAfter, skeyLtB, jsString]
          · simp [hty, hnk, sortKey, typedCursorKey, keyAfter, idAfter, skeyLtB, jsString]
            exact or_congr Iff.rfl (and_congr eq_comm Iff.rfl)
    | vNum q =>
      cases hty : columnType cols cid with
      | number =>
        cases hnk : numKey (r.cell cid) with
        | none => simp [hty, hnk, sortKey]
        | some k =>
          cases dir
          · simp [hty, hnk, sortKey, typedCursorKey, keyAfter, idAfter, skeyLtB, jsNumber]
          · simp [hty, hnk, sortKey, typedCursorKey, keyAfter, idAfter, skeyLtB, jsNumber]
            exact or_congr Iff.rfl (and_congr eq_comm Iff.rfl)
      | text =>
        cases hnk : textKey (r.cell cid) with
        | none => simp [hty, hnk, sortKey]
        | some k =>
          cases dir
          · simp [hty, hnk, sortKey, typedCursorKey, keyAfter, idAfter, skeyLtB, jsString]
          · simp [hty, hnk, sortKey, typedCursorKey, keyAfter, idAfter, skeyLtB, jsString]
            exact or_congr Iff.rfl (and_congr eq_comm Iff.rfl)

/-- Witness for C4: the non-null continuation at a concrete NUMBER-sorted
cursor and row. -/
theorem c4_sorted_continuation_witness :
    cursorPred [numColC] (some { columnId := 1, direction := .asc })
      (some { id := 1, sortValue := some (.vNum 2) })
      { id := 5, order := 9, cells := [(1, .vNum 3)] } = true :=
  ((c4_sorted_continuation [numColC] { columnId := 1, direction := .asc }
      { id := 1, sortValue := some (.vNum 2) }
      { id := 5, order := 9, cells := [(1, .vNum 3)] }).2
    (.vNum 2) rfl (by decide)).mpr
    (Or.inr ⟨.num 3, .num 2, by decide, by decide,
      Or.inl (by
        show skeyLtB (SKey.num 2) (SKey.num 3) = true
        decide)⟩)
